import Mathlib

/-!
Shallow embedding of the ReadyBuddy application (`src/main.py`) and proofs
about its request handlers, content catalog and persistence layer.

The embedding models:
* Python `int(...)` applied to a query/cookie string (`parsePyInt`),
  restricted to ASCII decimal literals with optional surrounding whitespace
  and an optional sign (underscore digit separators and non-ASCII digits are
  not modelled; no claim depends on them);
* Python `str(...)` applied to a non-negative integer id (`natToStr`);
* the SQLite-backed store (`DB`) with AUTOINCREMENT id assignment: the two
  tables created by `init_db`, where each insert assigns the next id and ids
  start at 1 on a fresh database file (the `timestamp DATETIME DEFAULT
  CURRENT_TIMESTAMP` column is real time and is not modelled);
* the route handlers `submit_onboarding`, `module_detail` and `submit_quiz`
  as functions from the database state and the request data to the new
  database state and a response value.
-/

namespace ReadyBuddy

/-- ASCII decimal digit test, `48 ≤ c ≤ 57`. -/
def isAsciiDigit (c : Char) : Bool := 48 ≤ c.toNat && c.toNat ≤ 57

/-- The ASCII whitespace characters stripped by Python `int(...)`
(space, tab, linefeed, carriage return, vertical tab, form feed). -/
def isPySpace (c : Char) : Bool :=
  c == ' ' || c == '\t' || c == '\n' || c == '\r' || c == '\x0b' || c == '\x0c'

/-- Big-endian decimal value of a digit list (no validity check). -/
def valFold (cs : List Char) : Nat :=
  cs.foldl (fun a c => 10 * a + (c.toNat - 48)) 0

/-- Value of a nonempty all-digit character list; `none` otherwise. -/
def digitsVal (cs : List Char) : Option Nat :=
  if !cs.isEmpty && cs.all isAsciiDigit then some (valFold cs) else none

/-- Strip leading and trailing Python whitespace from a character list. -/
def stripPySpaces (cs : List Char) : List Char :=
  ((cs.dropWhile isPySpace).reverse.dropWhile isPySpace).reverse

/-- Sign-then-digits part of Python `int` parsing (after whitespace strip). -/
def parseSigned : List Char → Option Int
  | [] => none
  | c :: rest =>
    if c = '-' then (digitsVal rest).map (fun n => -Int.ofNat n)
    else if c = '+' then (digitsVal rest).map Int.ofNat
    else (digitsVal (c :: rest)).map Int.ofNat

/-- Python `int(s)` for a string `s`: strip surrounding whitespace, then an
optional single `+`/`-` sign followed by a nonempty run of ASCII decimal
digits; `none` models the `ValueError` raised on anything else. -/
def parsePyInt (s : String) : Option Int := parseSigned (stripPySpaces s.data)

/-- The ASCII character of a decimal digit. -/
def digitChar (d : Nat) : Char := Char.ofNat (48 + d)

/-- Little-endian decimal digit list of a natural number, structurally
recursive on a fuel argument so that it evaluates by reduction; any fuel
above `n` yields the digits of `n` (fuel `0` is never reached). -/
def natToDigitsRevAux : Nat → Nat → List Char
  | 0, _ => []
  | fuel + 1, n =>
    if n < 10 then [digitChar n]
    else digitChar (n % 10) :: natToDigitsRevAux fuel (n / 10)

/-- Little-endian decimal digit list of a natural number. -/
def natToDigitsRev (n : Nat) : List Char := natToDigitsRevAux (n + 1) n

/-- Python `str(n)` for a non-negative integer: big-endian decimal digits. -/
def natToStr (n : Nat) : String := ⟨(natToDigitsRev n).reverse⟩

-- Correctness of the decimal printer against the decimal parser.

theorem digitChar_toNat {d : Nat} (h : d < 10) : (digitChar d).toNat = 48 + d := by
  interval_cases d <;> decide

theorem isAsciiDigit_digitChar {d : Nat} (h : d < 10) : isAsciiDigit (digitChar d) = true := by
  interval_cases d <;> decide

theorem natToDigitsRevAux_spec :
    ∀ (fuel n : Nat), n < fuel →
      (natToDigitsRevAux fuel n).all isAsciiDigit = true ∧
      natToDigitsRevAux fuel n ≠ [] ∧
      (natToDigitsRevAux fuel n).foldr (fun c a => 10 * a + (c.toNat - 48)) 0 = n := by
  intro fuel
  induction fuel with
  | zero => intro n hn; omega
  | succ fuel ih =>
    intro n hn
    by_cases h10 : n < 10
    · rw [natToDigitsRevAux, if_pos h10]
      refine ⟨by simp [isAsciiDigit_digitChar h10], by simp, ?_⟩
      simp [digitChar_toNat h10]
    · rw [natToDigitsRevAux, if_neg h10]
      have hdiv : n / 10 < fuel :=
        lt_of_lt_of_le (Nat.div_lt_self (by omega) (by omega)) (by omega)
      obtain ⟨ha, -, hv⟩ := ih (n / 10) hdiv
      refine ⟨?_, by simp, ?_⟩
      · simp only [List.all_cons, Bool.and_eq_true]
        exact ⟨isAsciiDigit_digitChar (Nat.mod_lt _ (by omega)), ha⟩
      · simp only [List.foldr_cons, hv]
        rw [digitChar_toNat (Nat.mod_lt _ (by omega))]
        omega

theorem natToDigitsRev_all_digits (n : Nat) :
    (natToDigitsRev n).all isAsciiDigit = true :=
  (natToDigitsRevAux_spec (n + 1) n (by omega)).1

theorem natToDigitsRev_ne_nil (n : Nat) : natToDigitsRev n ≠ [] :=
  (natToDigitsRevAux_spec (n + 1) n (by omega)).2.1

theorem valFold_reverse_natToDigitsRev (n : Nat) :
    valFold (natToDigitsRev n).reverse = n := by
  rw [valFold, List.foldl_reverse]
  exact (natToDigitsRevAux_spec (n + 1) n (by omega)).2.2

theorem not_isPySpace_of_isAsciiDigit {c : Char} (h : isAsciiDigit c = true) :
    isPySpace c = false := by
  simp only [isAsciiDigit, Bool.and_eq_true, decide_eq_true_eq] at h
  simp only [isPySpace, Bool.or_eq_false_iff, beq_eq_false_iff_ne, ne_eq]
  refine ⟨⟨⟨⟨⟨?_, ?_⟩, ?_⟩, ?_⟩, ?_⟩, ?_⟩ <;> rintro rfl <;> simp_all

theorem dropWhile_isPySpace_of_digits {cs : List Char} (h : cs.all isAsciiDigit = true) :
    cs.dropWhile isPySpace = cs := by
  cases cs with
  | nil => rfl
  | cons c t =>
    simp only [List.all_cons, Bool.and_eq_true] at h
    simp [List.dropWhile_cons, not_isPySpace_of_isAsciiDigit h.1]

theorem stripPySpaces_of_digits {cs : List Char} (h : cs.all isAsciiDigit = true) :
    stripPySpaces cs = cs := by
  have hrev : cs.reverse.all isAsciiDigit = true := by
    simp only [List.all_eq_true, List.mem_reverse] at h ⊢
    exact fun c hc => h c hc
  rw [stripPySpaces, dropWhile_isPySpace_of_digits h, dropWhile_isPySpace_of_digits hrev,
    List.reverse_reverse]

/-- `int(str(n)) = n` for every non-negative id `n`: the session-cookie value
written by the onboarding handler parses back to the profile id. -/
theorem parsePyInt_natToStr (n : Nat) : parsePyInt (natToStr n) = some (n : Int) := by
  have hall : (natToDigitsRev n).reverse.all isAsciiDigit = true := by
    simp only [List.all_eq_true] at *
    intro c hc
    have := natToDigitsRev_all_digits n
    simp only [List.all_eq_true] at this
    exact this c (List.mem_reverse.mp hc)
  have hne : (natToDigitsRev n).reverse ≠ [] := by
    simp [natToDigitsRev_ne_nil n]
  rw [parsePyInt]
  show parseSigned (stripPySpaces (natToDigitsRev n).reverse) = some (n : Int)
  rw [stripPySpaces_of_digits hall]
  obtain ⟨c, rest, hcr⟩ := List.exists_cons_of_ne_nil hne
  rw [hcr]
  have hc : isAsciiDigit c = true := by
    rw [hcr] at hall
    simp only [List.all_cons, Bool.and_eq_true] at hall
    exact hall.1
  have hcd : 48 ≤ c.toNat ∧ c.toNat ≤ 57 := by
    simpa [isAsciiDigit] using hc
  have hnm : c ≠ '-' := by rintro rfl; simp at hcd
  have hnp : c ≠ '+' := by rintro rfl; simp at hcd
  rw [parseSigned, if_neg hnm, if_neg hnp, ← hcr, digitsVal]
  rw [if_pos (by rw [hcr] at hall ⊢; simpa using hall), valFold_reverse_natToDigitsRev]
  rfl

-- ------------------------------ Data Models ------------------------------

/-- The quiz question attached to a module: the `self.question` dict built by
`Module.__init__` with keys `text`, `options`, `answer`. -/
structure Question where
  text : String
  options : List String
  answer : String
deriving DecidableEq, Inhabited

/-- A micro-learning module (class `Module` in `src/main.py`). -/
structure Module where
  id : Int
  title : String
  description : String
  content : String
  question : Question
  image : Option String
  videoLink : Option String
deriving DecidableEq, Inhabited

/-- The predefined module catalog (`modules: List[Module]` in `src/main.py`),
in source order. Adjacent Python string literals are concatenated as in the
source; `image`/`video_link` default to `None` where not supplied. -/
def modules : List Module := [
  { id := 1,
    title := "Home Emergency Kit",
    description := "Build a basic emergency kit for your home.",
    content := "A well‑stocked emergency kit is critical. Ensure you have at least a three‑day supply of non‑perishable food, one gallon of water per person per day, a flashlight with extra batteries, a battery‑powered or hand‑crank radio, first aid supplies, a whistle to signal for help, and local maps. Rotate food and water every six months.",
    question := { text := "What is the recommended minimum amount of water to store per person per day?",
                  options := ["Half a gallon", "One gallon", "Two gallons"],
                  answer := "One gallon" },
    image := none, videoLink := none },
  { id := 2,
    title := "Fire Safety & Prevention",
    description := "Learn how to reduce fire risks and respond effectively.",
    content := "Install smoke detectors on every level of your home and test them monthly. Practice a family fire escape plan twice a year. Keep a fire extinguisher in the kitchen and know how to use it. Never leave cooking unattended.",
    question := { text := "How often should you test your smoke detectors?",
                  options := ["Every week", "Every month", "Every year"],
                  answer := "Every month" },
    image := none, videoLink := none },
  { id := 3,
    title := "Seismic Safety Basics",
    description := "Secure your home and identify safe spots before an earthquake.",
    content := "Secure heavy furniture and appliances to walls, and store breakable items on low shelves. Identify safe spots in each room, like under sturdy tables or against interior walls. Practice drills so everyone knows where to go.",
    question := { text := "Where is a safe place to be during an earthquake?",
                  options := ["Near exterior windows", "Under a sturdy table", "In a doorway"],
                  answer := "Under a sturdy table" },
    image := none, videoLink := none },
  { id := 4,
    title := "First Aid Basics",
    description := "Understand essential first aid techniques.",
    content := "Learn how to perform CPR, treat minor cuts and burns, and recognize signs of shock. Always have a well‑stocked first aid kit and take a certified course to refresh your skills annually.",
    question := { text := "Which of the following is recommended for treating a minor burn?",
                  options := ["Apply ice directly", "Use cool water and cover with a sterile gauze", "Pop any blisters"],
                  answer := "Use cool water and cover with a sterile gauze" },
    image := none, videoLink := none },
  { id := 5,
    title := "Evacuation Planning",
    description := "Create and practice an evacuation plan.",
    content := "Identify multiple evacuation routes from your home and community. Choose meeting points and communication plans. Keep your vehicle fueled, and have a go‑bag ready with essential documents, cash, and supplies.",
    question := { text := "Why is it important to have multiple evacuation routes?",
                  options := ["In case roads are blocked", "It isn’t important", "To increase travel time"],
                  answer := "In case roads are blocked" },
    image := none, videoLink := none },
  { id := 6,
    title := "Drop, Cover & Hold On",
    description := "Learn how to protect yourself during an earthquake.",
    content := "Earthquakes strike without warning. To protect yourself, follow the \x27Drop, Cover, and Hold On\x27 procedure: drop to the ground before the quake drops you, take cover under a sturdy table or desk (or cover your head and neck with your arms if no shelter is available), and hold on until the shaking stops. Secure heavy items in your home, such as bookcases and appliances, to prevent them from falling. Prepare an emergency kit and practice drills with your family.",
    question := { text := "What should you do during an earthquake?",
                  options := ["Run outside", "Drop, Cover, and Hold On", "Stand in a doorway"],
                  answer := "Drop, Cover, and Hold On" },
    image := some "earthquake.png",
    videoLink := some "https://www.shakeout.org/dropcoverholdon/" },
  { id := 7,
    title := "Tsunami Preparedness",
    description := "Understand tsunami warning signs and how to respond quickly.",
    content := "If you are near the coast and feel strong or long shaking, hear a loud roar from the ocean, or notice the water suddenly recede, a tsunami could be coming. Have multiple ways to receive warnings (NOAA Weather Radio, text alerts) and know your community’s evacuation routes to high ground. Create a family emergency plan, practice walking your evacuation routes, and prepare a portable disaster supplies kit.",
    question := { text := "After feeling strong shaking near the coast, what should you do?",
                  options := ["Wait for an official alert", "Immediately go to high ground", "Call your neighbors"],
                  answer := "Immediately go to high ground" },
    image := some "tsunami.png",
    videoLink := some "https://www.weather.gov/jetstream/tsunami" },
  { id := 8,
    title := "Urban Survival Basics",
    description := "Tips for staying safe and prepared in city environments.",
    content := "Urban emergencies can include power outages, civil unrest, and infrastructure failures. Maintain situational awareness and have a family communication plan. Keep a get‑home bag with water, snacks, first aid supplies, and sturdy shoes. Know how to shut off utilities and identify safe shelter locations. Follow guidance from local authorities and stay informed through reliable news sources.",
    question := { text := "Which of the following is NOT recommended for urban survival?",
                  options := ["Keep a get-home bag", "Have a family communication plan", "Ignore local authorities"],
                  answer := "Ignore local authorities" },
    image := some "urban.png",
    videoLink := some "https://www.ready.gov/power-outages" },
  { id := 9,
    title := "Rural Survival Basics",
    description := "Fundamental skills for survival in wilderness and rural areas.",
    content := "In rural or wilderness settings, your priorities are shelter, water, fire, and food. Learn to locate and purify water from natural sources, build a simple shelter, and start a fire safely. Carry a map and compass, and know basic navigation. Understand local flora and fauna, and always let someone know your travel plans before venturing out.",
    question := { text := "What is the priority when lost in a rural wilderness?",
                  options := ["Posting on social media", "Finding a safe water source", "Collecting souvenirs"],
                  answer := "Finding a safe water source" },
    image := some "rural.png",
    videoLink := some "https://www.ready.gov/wilderness" }
]

-- ------------------------------ Database Model ------------------------------

/-- A row of the `user_profiles` table created by `init_db`. -/
structure ProfileRow where
  id : Nat
  family_size : Int
  location : String
  skill_level : String
deriving DecidableEq

/-- A row of the `quiz_results` table created by `init_db` (the
`timestamp DATETIME DEFAULT CURRENT_TIMESTAMP` column is real time and is
not modelled; no claim refers to it). -/
structure QuizRow where
  id : Nat
  user_id : Option Int
  module_id : Int
  score : Nat
deriving DecidableEq

/-- The SQLite database state at `DB_PATH`: the two tables plus the
AUTOINCREMENT counters for their INTEGER PRIMARY KEY columns. SQLite
AUTOINCREMENT guarantees a newly inserted row gets an id strictly larger
than any id ever used in that table; we model it with a next-id counter
that only ever grows. -/
structure DB where
  profiles : List ProfileRow
  quiz_results : List QuizRow
  nextProfileId : Nat
  nextQuizId : Nat
deriving DecidableEq

/-- `init_db` on a fresh database file: both tables exist and are empty, and
AUTOINCREMENT starts both id sequences at 1. (`CREATE TABLE IF NOT EXISTS`
is idempotent: on an existing database the state is unchanged.) -/
def emptyDB : DB := { profiles := [], quiz_results := [], nextProfileId := 1, nextQuizId := 1 }

/-- The `INSERT INTO user_profiles ...` statement of `submit_onboarding`
followed by `cur.lastrowid`: appends a row with the next AUTOINCREMENT id
and returns that id. -/
def DB.insertProfile (db : DB) (family_size : Int) (location skill_level : String) :
    DB × Nat :=
  let id := db.nextProfileId
  ({ db with
      profiles := db.profiles ++ [{ id := id, family_size := family_size,
                                    location := location, skill_level := skill_level }],
      nextProfileId := id + 1 }, id)

/-- The `INSERT INTO quiz_results ...` statement of `submit_quiz`: appends a
row with the next AUTOINCREMENT id. -/
def DB.insertQuizResult (db : DB) (user_id : Option Int) (module_id : Int) (score : Nat) :
    DB :=
  { db with
      quiz_results := db.quiz_results ++ [{ id := db.nextQuizId, user_id := user_id,
                                            module_id := module_id, score := score }],
      nextQuizId := db.nextQuizId + 1 }

-- ------------------------------- Routes -------------------------------

/-- Python truthiness of an `Optional[str]` query parameter or cookie:
`None` and the empty string are falsy, every other string is truthy. -/
def truthy : Option String → Bool
  | none => false
  | some s => !(s == "")

/-- Python `str(i)` for an `int` (used in the `f"/modules/{module_id}"`
redirect URL of `submit_quiz`). -/
def intToStr (i : Int) : String :=
  if i < 0 then "-" ++ natToStr i.natAbs else natToStr i.toNat

/-- The response of `submit_onboarding`: always a 303 redirect to
`/modules`; the `user_id` cookie (30-day max age, http-only) is set exactly
when a profile row was inserted. -/
structure OnboardingResponse where
  redirectUrl : String
  cookie : Option String
deriving DecidableEq

/-- Outcome of one SQLite write attempt: `ok`, or `fault` when the statement
raises (store unavailable, write failure). The Python handlers wrap the
writes in `try`/`except Exception`, so both outcomes are embedding inputs. -/
inductive WriteOutcome where
  | ok
  | fault
deriving DecidableEq

/-- The `try` block of `submit_onboarding`: returns the database state after
the block and the `user_id` local (as `lastrowid` of the INSERT, `None` when
validation failed, the parse raised, or the write faulted — all exceptions
are swallowed by `except Exception: pass`). -/
def onboardInsert (db : DB) (family_size_raw location skill_level : Option String)
    (w : WriteOutcome) : DB × Option Nat :=
  if truthy family_size_raw && truthy location && truthy skill_level then
    match parsePyInt (family_size_raw.getD "") with
    | none => (db, none)
    | some family_size =>
      if family_size > 0 then
        match w with
        | .ok =>
          let r := db.insertProfile family_size (location.getD "") (skill_level.getD "")
          (r.1, some r.2)
        | .fault => (db, none)
      else (db, none)
  else (db, none)

/-- GET `/onboarding` (`submit_onboarding` in `src/main.py`): validate the
three query parameters, insert a `user_profiles` row when they pass
(`family_size` truthy and parsing to an int `> 0`, `location` and
`skill_level` truthy), swallow any parse/database exception, and redirect
to `/modules`, setting the `user_id` cookie to `str(user_id)` only when an
id was obtained. `w` is the outcome of the INSERT when it is attempted. -/
def submit_onboarding (db : DB) (family_size_raw location skill_level : Option String)
    (w : WriteOutcome) : DB × OnboardingResponse :=
  ((onboardInsert db family_size_raw location skill_level w).1,
   { redirectUrl := "/modules",
     cookie := (onboardInsert db family_size_raw location skill_level w).2.map natToStr })

/-- The response of GET `/modules/{module_id}` (`module_detail`): the
rendered module page, or the 404 raised by `HTTPException(status_code=404)`. -/
inductive DetailResponse where
  | notFound
  | page (m : Module)
deriving DecidableEq

/-- GET `/modules/{module_id}` (`module_detail` in `src/main.py`). -/
def module_detail (module_id : Int) : DetailResponse :=
  match modules.find? (fun m => m.id == module_id) with
  | none => .notFound
  | some m => .page m

/-- The response of GET `/modules/{module_id}/quiz` (`submit_quiz`): the 404
raised for an unknown module, the 303 redirect back to the module detail
page when no option was selected, or the rendered `quiz_result.html`
template with its context (`module`, `selected`, `correct`). -/
inductive QuizResponse where
  | notFound
  | redirect (url : String)
  | result (m : Module) (selected : String) (correct : Bool)
deriving DecidableEq

/-- The `correct` flag of a rendered quiz-result response, if any. -/
def QuizResponse.correctFlag : QuizResponse → Option Bool
  | .result _ _ c => some c
  | _ => none

/-- The `try` block of `submit_quiz` guarded by `user_id_str is not None`:
insert a `quiz_results` row only when the `user_id` cookie is present and
`int(...)` parses it; any parse or database exception is swallowed by
`except Exception: pass`, leaving the database unchanged. -/
def quizWrite (db : DB) (user_id_cookie : Option String) (module_id : Int) (score : Nat)
    (w : WriteOutcome) : DB :=
  match user_id_cookie with
  | none => db
  | some s =>
    match parsePyInt s with
    | none => db
    | some user_id =>
      match w with
      | .ok => db.insertQuizResult (some user_id) module_id score
      | .fault => db

/-- GET `/modules/{module_id}/quiz` (`submit_quiz` in `src/main.py`): 404 on
an unknown module id; redirect to `/modules/{module_id}` when
`selected_option` is absent or empty; otherwise grade by exact string
equality against the module's answer, best-effort record the result via
`quizWrite`, and render `quiz_result.html` with the module, the selected
option and the verdict. `w` is the outcome of the INSERT when attempted. -/
def submit_quiz (db : DB) (module_id : Int) (selected_option : Option String)
    (user_id_cookie : Option String) (w : WriteOutcome) : DB × QuizResponse :=
  match modules.find? (fun m => m.id == module_id) with
  | none => (db, .notFound)
  | some m =>
    if !truthy selected_option then
      (db, .redirect ("/modules/" ++ intToStr module_id))
    else
      let selected := selected_option.getD ""
      let correct := selected == m.question.answer
      (quizWrite db user_id_cookie module_id (if correct then 1 else 0) w,
       .result m selected correct)

-- --------------------- Store lifetime (for id monotonicity) ---------------------

/-- One handler invocation that may touch the store: an onboarding
submission or a quiz submission with arbitrary request data and write
outcome. These are the only two code paths that write to the database. -/
inductive Step : DB → DB → Prop where
  | onboarding (db : DB) (fsr loc sk : Option String) (w : WriteOutcome) :
      Step db (submit_onboarding db fsr loc sk w).1
  | quiz (db : DB) (mid : Int) (sel ck : Option String) (w : WriteOutcome) :
      Step db (submit_quiz db mid sel ck w).1

/-- Reachability of one store state from another through handler calls. -/
def Reach : DB → DB → Prop := Relation.ReflTransGen Step

-- ------------------------------ Handler lemmas ------------------------------

theorem truthy_some {s : String} (h : s ≠ "") : truthy (some s) = true := by
  simp [truthy, h]

theorem beq_eq_decide (s t : String) : (s == t) = decide (s = t) := by
  by_cases h : s = t <;> simp [h]

theorem find?_modules_eq_none {mid : Int} (h : ∀ m ∈ modules, m.id ≠ mid) :
    modules.find? (fun m => m.id == mid) = none := by
  rw [List.find?_eq_none]
  intro m hm
  simpa using h m hm

theorem submit_quiz_of_notFound {mid : Int} (h : ∀ m ∈ modules, m.id ≠ mid)
    (db : DB) (sel ck : Option String) (w : WriteOutcome) :
    submit_quiz db mid sel ck w = (db, .notFound) := by
  simp [submit_quiz, find?_modules_eq_none h]

theorem submit_quiz_of_noSelection {mid : Int} {m : Module}
    (hfind : modules.find? (fun x => x.id == mid) = some m)
    (db : DB) {sel : Option String} (hsel : truthy sel = false) (ck : Option String)
    (w : WriteOutcome) :
    submit_quiz db mid sel ck w = (db, .redirect ("/modules/" ++ intToStr mid)) := by
  simp [submit_quiz, hfind, hsel]

theorem submit_quiz_of_selected {mid : Int} {m : Module}
    (hfind : modules.find? (fun x => x.id == mid) = some m)
    (db : DB) {s : String} (hs : s ≠ "") (ck : Option String) (w : WriteOutcome) :
    submit_quiz db mid (some s) ck w =
      (quizWrite db ck mid (if s == m.question.answer then 1 else 0) w,
       .result m s (s == m.question.answer)) := by
  simp [submit_quiz, hfind, truthy, hs]

theorem quizWrite_no_cookie (db : DB) (mid : Int) (sc : Nat) (w : WriteOutcome) :
    quizWrite db none mid sc w = db := rfl

theorem quizWrite_unparsable {s : String} (h : parsePyInt s = none)
    (db : DB) (mid : Int) (sc : Nat) (w : WriteOutcome) :
    quizWrite db (some s) mid sc w = db := by
  simp [quizWrite, h]

theorem quizWrite_parsed_ok {s : String} {uid : Int} (h : parsePyInt s = some uid)
    (db : DB) (mid : Int) (sc : Nat) :
    quizWrite db (some s) mid sc .ok = db.insertQuizResult (some uid) mid sc := by
  simp [quizWrite, h]

theorem quizWrite_fault (db : DB) (ck : Option String) (mid : Int) (sc : Nat) :
    quizWrite db ck mid sc .fault = db := by
  cases ck with
  | none => rfl
  | some s => cases h : parsePyInt s <;> simp [quizWrite, h]

theorem onboardInsert_invalid {fsr loc sk : Option String}
    (h : fsr = none ∨ fsr = some "" ∨ (∃ s, fsr = some s ∧ parsePyInt s = none) ∨
         (∃ s z, fsr = some s ∧ parsePyInt s = some z ∧ z ≤ 0) ∨
         loc = none ∨ loc = some "" ∨ sk = none ∨ sk = some "")
    (db : DB) (w : WriteOutcome) :
    onboardInsert db fsr loc sk w = (db, none) := by
  rcases h with rfl | rfl | ⟨s, rfl, hp⟩ | ⟨s, z, rfl, hp, hz⟩ | rfl | rfl | rfl | rfl
  · simp [onboardInsert, truthy]
  · simp [onboardInsert, truthy]
  · simp [onboardInsert, hp]
  · have hzz : ¬ (z > 0) := by omega
    simp [onboardInsert, hp, hzz]
  · simp [onboardInsert, truthy]
  · simp [onboardInsert, truthy]
  · simp [onboardInsert, truthy]
  · simp [onboardInsert, truthy]

theorem onboardInsert_snd_some {db : DB} {fsr loc sk : Option String} {w : WriteOutcome}
    {id : Nat} (h : (onboardInsert db fsr loc sk w).2 = some id) :
    id = db.nextProfileId ∧ w = .ok ∧
    ∃ fs, parsePyInt (fsr.getD "") = some fs ∧ 0 < fs ∧
      onboardInsert db fsr loc sk w =
        ((db.insertProfile fs (loc.getD "") (sk.getD "")).1, some db.nextProfileId) := by
  unfold onboardInsert at h
  split at h
  · rename_i hcond
    split at h
    · simp at h
    · rename_i fs hfs
      split at h
      · rename_i hpos
        split at h
        · simp only [DB.insertProfile, Option.some.injEq] at h
          subst h
          refine ⟨rfl, rfl, fs, hfs, hpos, ?_⟩
          simp [onboardInsert, hcond, hfs, hpos, DB.insertProfile]
        · simp at h
      · simp at h
  · simp at h

theorem onboardInsert_fst_nextProfileId (db : DB) (fsr loc sk : Option String)
    (w : WriteOutcome) :
    db.nextProfileId ≤ (onboardInsert db fsr loc sk w).1.nextProfileId := by
  unfold onboardInsert
  split
  · split
    · exact le_refl _
    · split
      · split
        · simp [DB.insertProfile]
        · exact le_refl _
      · exact le_refl _
  · exact le_refl _

theorem submit_quiz_fst_nextProfileId (db : DB) (mid : Int) (sel ck : Option String)
    (w : WriteOutcome) :
    (submit_quiz db mid sel ck w).1.nextProfileId = db.nextProfileId := by
  unfold submit_quiz
  split
  · rfl
  · split
    · rfl
    · unfold quizWrite
      split
      · rfl
      · split
        · rfl
        · split
          · simp [DB.insertQuizResult]
          · rfl

theorem step_nextProfileId_mono {db db' : DB} (h : Step db db') :
    db.nextProfileId ≤ db'.nextProfileId := by
  cases h with
  | onboarding fsr loc sk w => exact onboardInsert_fst_nextProfileId db fsr loc sk w
  | quiz mid sel ck w => exact le_of_eq (submit_quiz_fst_nextProfileId db mid sel ck w).symm

theorem reach_nextProfileId_mono {db db' : DB} (h : Reach db db') :
    db.nextProfileId ≤ db'.nextProfileId := by
  have h' : Relation.ReflTransGen Step db db' := h
  clear h
  induction h' with
  | refl => exact le_refl _
  | tail _ hstep ih => exact le_trans ih (step_nextProfileId_mono hstep)

-- ------------------------------ Claims ------------------------------

/-- Claim C1, counterexample: a quiz submission on existing module 1 with
`selected_option="One gallon"` and no session cookie is graded (correct) but
leaves the database unchanged — no `QuizResult` row with a null `user_id` is
inserted, contrary to the claim; likewise with an unparsable cookie. -/
theorem C1_counterexample :
    (submit_quiz emptyDB 1 (some "One gallon") none WriteOutcome.ok).1 = emptyDB ∧
    (submit_quiz emptyDB 1 (some "One gallon") none WriteOutcome.ok).2.correctFlag =
      some true ∧
    (submit_quiz emptyDB 1 (some "One gallon") (some "abc") WriteOutcome.ok).1 = emptyDB := by
  exact ⟨rfl, rfl, rfl⟩

/-- Claim C1, amended: for every quiz submission on an existing module with a
`selected_option` supplied, a `QuizResult` row (with the given module id and
computed score) is inserted only when a `user_id` cookie is present and
parses as an integer; when the cookie is absent or unparsable the database
is left unchanged (no row with a null `user_id` is written). -/
theorem C1_quiz_row_requires_parsable_cookie (db : DB) (mid : Int) (m : Module)
    (sel : String) (ck : Option String) (w : WriteOutcome)
    (hfind : modules.find? (fun x => x.id == mid) = some m) (hsel : sel ≠ "") :
    ((ck = none ∨ ∃ s, ck = some s ∧ parsePyInt s = none) →
      (submit_quiz db mid (some sel) ck w).1 = db) ∧
    (∀ (s : String) (uid : Int), ck = some s → parsePyInt s = some uid →
      (submit_quiz db mid (some sel) ck WriteOutcome.ok).1.quiz_results =
        db.quiz_results ++
          [{ id := db.nextQuizId, user_id := some uid, module_id := mid,
             score := if sel == m.question.answer then 1 else 0 }]) := by
  constructor
  · rintro (rfl | ⟨s, rfl, hp⟩)
    · rw [submit_quiz_of_selected hfind db hsel none w]
      exact quizWrite_no_cookie db mid (if sel == m.question.answer then 1 else 0) w
    · rw [submit_quiz_of_selected hfind db hsel (some s) w]
      exact quizWrite_unparsable hp db mid _ w
  · intro s uid hck hp
    subst hck
    rw [submit_quiz_of_selected hfind db hsel (some s) WriteOutcome.ok]
    simp [quizWrite_parsed_ok hp, DB.insertQuizResult]

/-- Witness for the amended C1 at a concrete input: module 1, selection
"One gallon", no cookie. -/
theorem C1_witness :
    (submit_quiz emptyDB 1 (some "One gallon") none WriteOutcome.ok).1 = emptyDB := by
  have h := C1_quiz_row_requires_parsable_cookie emptyDB 1 _ "One gallon" none
    WriteOutcome.ok rfl (by decide)
  exact h.1 (Or.inl rfl)

/-- Claim C2: for every quiz submission on an existing module with an option
selected, `correct` is exact (case-sensitive, untrimmed) string equality of
the selected option with the module's answer; for module 1 (answer
"One gallon"), "One gallon" grades correct and "Two gallons" incorrect. -/
theorem C2_exact_string_grading :
    (∀ (db : DB) (mid : Int) (m : Module) (sel : String) (ck : Option String)
        (w : WriteOutcome),
        modules.find? (fun x => x.id == mid) = some m → sel ≠ "" →
        (submit_quiz db mid (some sel) ck w).2 =
          QuizResponse.result m sel (decide (sel = m.question.answer))) ∧
    (submit_quiz emptyDB 1 (some "One gallon") none WriteOutcome.ok).2.correctFlag =
      some true ∧
    (submit_quiz emptyDB 1 (some "Two gallons") none WriteOutcome.ok).2.correctFlag =
      some false := by
  refine ⟨?_, rfl, rfl⟩
  intro db mid m sel ck w hfind hsel
  rw [submit_quiz_of_selected hfind db hsel ck w]
  simp [beq_eq_decide]

/-- Witness for C2 at a concrete input: module 2 (answer "Every month"),
selection "Every week" grades incorrect. -/
theorem C2_witness :
    (submit_quiz emptyDB 2 (some "Every week") none WriteOutcome.ok).2.correctFlag =
      some false := by
  have h := C2_exact_string_grading.1 emptyDB 2 _ "Every week" none WriteOutcome.ok rfl
    (by decide)
  rw [h]
  rfl

/-- Claim C3: round-trip of the session identity. A successful onboarding
submission appends a profile row whose id is the issued cookie value (in
decimal), and a later quiz submission on an existing module presenting that
cookie appends a `quiz_results` row whose `user_id` equals that profile id. -/
theorem C3_session_roundtrip (db : DB) (fsr loc sk : Option String) (c : String)
    (h1 : (submit_onboarding db fsr loc sk WriteOutcome.ok).2.cookie = some c)
    (db2 : DB) (mid : Int) (m : Module) (sel : String)
    (hm : modules.find? (fun x => x.id == mid) = some m) (hsel : sel ≠ "") :
    c = natToStr db.nextProfileId ∧
    (∃ p : ProfileRow, (submit_onboarding db fsr loc sk WriteOutcome.ok).1.profiles =
        db.profiles ++ [p] ∧ p.id = db.nextProfileId) ∧
    (submit_quiz db2 mid (some sel) (some c) WriteOutcome.ok).1.quiz_results =
      db2.quiz_results ++
        [{ id := db2.nextQuizId, user_id := some (db.nextProfileId : Int), module_id := mid,
           score := if sel == m.question.answer then 1 else 0 }] := by
  have h2 : (onboardInsert db fsr loc sk WriteOutcome.ok).2.map natToStr = some c := h1
  rcases ho : (onboardInsert db fsr loc sk WriteOutcome.ok).2 with _ | id
  · rw [ho] at h2
    simp at h2
  · rw [ho] at h2
    obtain ⟨hid, _, fs, hfs, hpos, heq⟩ := onboardInsert_snd_some ho
    subst hid
    have hc : c = natToStr db.nextProfileId := by
      simpa using h2.symm
    refine ⟨hc, ?_, ?_⟩
    · refine ⟨{ id := db.nextProfileId, family_size := fs, location := loc.getD "",
                skill_level := sk.getD "" }, ?_, rfl⟩
      show (onboardInsert db fsr loc sk WriteOutcome.ok).1.profiles = _
      rw [heq]
      simp [DB.insertProfile]
    · rw [submit_quiz_of_selected hm db2 hsel (some c) WriteOutcome.ok]
      have hparse : parsePyInt c = some (db.nextProfileId : Int) := by
        rw [hc]
        exact parsePyInt_natToStr _
      simp [quizWrite_parsed_ok hparse, DB.insertQuizResult]

/-- Witness for C3 at a concrete input: onboarding `family_size=3,
location=Portland, skill_level=beginner` on a fresh store issues cookie "1";
presenting it on module 1 with "One gallon" appends a result row with
`user_id = 1` and `score = 1`. -/
theorem C3_witness :
    (submit_quiz emptyDB 1 (some "One gallon") (some "1") WriteOutcome.ok).1.quiz_results =
      [{ id := 1, user_id := some 1, module_id := 1, score := 1 }] := by
  have h := C3_session_roundtrip emptyDB (some "3") (some "Portland") (some "beginner") "1"
    rfl emptyDB 1 _ "One gallon" rfl (by decide)
  have h3 := h.2.2
  simpa using h3

/-- Claim C4: for every quiz submission on an existing module with an option
selected, a storage fault on the result write (or a cookie that fails to
parse) is swallowed: the handler still renders the verdict and module
content, identical to the response when the write succeeds. -/
theorem C4_write_faults_swallowed (db : DB) (mid : Int) (m : Module) (sel : String)
    (ck : Option String) (w : WriteOutcome)
    (hfind : modules.find? (fun x => x.id == mid) = some m) (hsel : sel ≠ "") :
    (submit_quiz db mid (some sel) ck w).2 =
      QuizResponse.result m sel (sel == m.question.answer) ∧
    (submit_quiz db mid (some sel) ck w).2 =
      (submit_quiz db mid (some sel) ck WriteOutcome.ok).2 := by
  constructor
  · rw [submit_quiz_of_selected hfind db hsel ck w]
  · rw [submit_quiz_of_selected hfind db hsel ck w,
        submit_quiz_of_selected hfind db hsel ck WriteOutcome.ok]

/-- Witness for C4 at a concrete input: module 1, cookie "1", faulting
write — the response equals the successful-write response. -/
theorem C4_witness :
    (submit_quiz emptyDB 1 (some "One gallon") (some "1") WriteOutcome.fault).2 =
      (submit_quiz emptyDB 1 (some "One gallon") (some "1") WriteOutcome.ok).2 :=
  (C4_write_faults_swallowed emptyDB 1 _ "One gallon" (some "1") WriteOutcome.fault rfl
    (by decide)).2

/-- Claim C5: every invalid or partial onboarding submission (`family_size`
missing/empty, unparsable, zero or negative; `location` or `skill_level`
missing or empty) writes no profile row, produces no id, and still redirects
to `/modules` without setting a cookie and without surfacing an error. -/
theorem C5_invalid_onboarding_no_write (db : DB) (fsr loc sk : Option String)
    (w : WriteOutcome)
    (h : fsr = none ∨ fsr = some "" ∨ (∃ s, fsr = some s ∧ parsePyInt s = none) ∨
         (∃ s z, fsr = some s ∧ parsePyInt s = some z ∧ z ≤ 0) ∨
         loc = none ∨ loc = some "" ∨ sk = none ∨ sk = some "") :
    submit_onboarding db fsr loc sk w =
      (db, { redirectUrl := "/modules", cookie := none }) := by
  have h2 := onboardInsert_invalid h db w
  simp [submit_onboarding, h2]

/-- Witness for C5 at a concrete input: `family_size=0`. -/
theorem C5_witness :
    submit_onboarding emptyDB (some "0") (some "Portland") (some "beginner")
      WriteOutcome.ok = (emptyDB, { redirectUrl := "/modules", cookie := none }) :=
  C5_invalid_onboarding_no_write emptyDB (some "0") (some "Portland") (some "beginner")
    WriteOutcome.ok
    (Or.inr (Or.inr (Or.inr (Or.inl ⟨"0", 0, rfl, rfl, le_refl 0⟩))))

/-- Claim C6: every quiz request on an existing module with `selected_option`
absent or empty redirects back to `/modules/{id}`, writes no result row and
surfaces no error. -/
theorem C6_missing_selection_redirects (db : DB) (mid : Int) (m : Module)
    (sel ck : Option String) (w : WriteOutcome)
    (hfind : modules.find? (fun x => x.id == mid) = some m)
    (hsel : sel = none ∨ sel = some "") :
    submit_quiz db mid sel ck w = (db, .redirect ("/modules/" ++ intToStr mid)) := by
  have ht : truthy sel = false := by rcases hsel with rfl | rfl <;> rfl
  exact submit_quiz_of_noSelection hfind db ht ck w

/-- Witness for C6 at a concrete input: module 1 with no `selected_option`. -/
theorem C6_witness :
    submit_quiz emptyDB 1 none none WriteOutcome.ok =
      (emptyDB, QuizResponse.redirect "/modules/1") := by
  have h := C6_missing_selection_redirects emptyDB 1 _ none none WriteOutcome.ok rfl
    (Or.inl rfl)
  rw [h]
  rfl

/-- Claim C7: every integer module id outside the catalog yields NotFound
(404) from both the module-detail and the quiz-submission handlers; in
particular `/modules/999/quiz?selected_option=X` yields NotFound. -/
theorem C7_unknown_module_notFound :
    (∀ mid : Int, (∀ m ∈ modules, m.id ≠ mid) →
      module_detail mid = DetailResponse.notFound ∧
      ∀ (db : DB) (sel ck : Option String) (w : WriteOutcome),
        submit_quiz db mid sel ck w = (db, QuizResponse.notFound)) ∧
    submit_quiz emptyDB 999 (some "X") none WriteOutcome.ok =
      (emptyDB, QuizResponse.notFound) := by
  constructor
  · intro mid h
    refine ⟨?_, fun db sel ck w => submit_quiz_of_notFound h db sel ck w⟩
    simp [module_detail, find?_modules_eq_none h]
  · rfl

/-- Witness for C7 at a concrete input: module id 999 is outside the
catalog, so the detail page is NotFound. -/
theorem C7_witness :
    module_detail 999 = DetailResponse.notFound :=
  (C7_unknown_module_notFound.1 999 (by decide)).1

/-- Claim C8: catalog integrity — for every module in the catalog, the
answer string is a member of the options sequence. -/
theorem C8_catalog_integrity :
    ∀ m ∈ modules, m.question.answer ∈ m.question.options := by
  decide

/-- Witness for C8 at a concrete module: the first module of the catalog. -/
theorem C8_witness :
    (modules.head (by decide)).question.answer ∈ (modules.head (by decide)).question.options :=
  C8_catalog_integrity (modules.head (by decide)) (List.head_mem _)

/-- Claim C9: profile ids are strictly increasing over the store's lifetime:
a successful insert from any state reachable from the fresh store returns a
positive id, and any later successful insert (any arguments) returns a
strictly greater id, so ids are never reused. -/
theorem C9_profile_ids_strictly_increasing (db db2 : DB) (fs fs2 : Int)
    (loc sk loc2 sk2 : String) (hdb : Reach emptyDB db)
    (hdb2 : Reach (db.insertProfile fs loc sk).1 db2) :
    0 < (db.insertProfile fs loc sk).2 ∧
    (db.insertProfile fs loc sk).2 < (db2.insertProfile fs2 loc2 sk2).2 := by
  have h1 : 1 ≤ db.nextProfileId := reach_nextProfileId_mono hdb
  have h2 : (db.insertProfile fs loc sk).1.nextProfileId ≤ db2.nextProfileId :=
    reach_nextProfileId_mono hdb2
  simp only [DB.insertProfile] at h2 ⊢
  omega

/-- Witness for C9 at a concrete input: two inserts on the fresh store
return ids 1 and 2. -/
theorem C9_witness :
    0 < (emptyDB.insertProfile 3 "Portland" "beginner").2 ∧
    (emptyDB.insertProfile 3 "Portland" "beginner").2 <
      ((emptyDB.insertProfile 3 "Portland" "beginner").1.insertProfile 3 "Portland"
        "beginner").2 :=
  C9_profile_ids_strictly_increasing emptyDB
    (emptyDB.insertProfile 3 "Portland" "beginner").1 3 3 "Portland" "beginner" "Portland"
    "beginner" Relation.ReflTransGen.refl Relation.ReflTransGen.refl

/-- Claim C10: in the quiz handler the existence check precedes the
missing-selection check: an unknown module id yields NotFound even when no
`selected_option` is supplied — never the redirect to the detail page. -/
theorem C10_notFound_precedes_missing_selection (db : DB) (mid : Int)
    (ck : Option String) (w : WriteOutcome) (h : ∀ m ∈ modules, m.id ≠ mid) :
    submit_quiz db mid none ck w = (db, QuizResponse.notFound) :=
  submit_quiz_of_notFound h db none ck w

/-- Witness for C10 at a concrete input: module id 999 with no selection. -/
theorem C10_witness :
    submit_quiz emptyDB 999 none none WriteOutcome.ok = (emptyDB, QuizResponse.notFound) :=
  C10_notFound_precedes_missing_selection emptyDB 999 none WriteOutcome.ok (by decide)

end ReadyBuddy

